import Mathlib

/-!
Shallow embedding of the `rest-songs` service (Go) for specification checking.

The embedding covers:
* the data model (`Song`, `SongFilters`, `SongDetail`, the Go `time.Time`
  zero-value convention) from `internal/app/models`;
* verse pagination `SongService.GetSongText` from `internal/app/api/service.go`;
* SQL query composition `Repo.GetWithFilter`, and the relational semantics of
  `Repo.Update`, `Repo.Delete`, `Repo.Create` from
  `internal/app/repository/postgresql/repo.go`;
* the create pipeline `SongService.CreateSong` (date parsing with Go layout
  "02.01.2006") from `internal/app/api/service.go`;
* the HTTP edge: `strconv.Atoi`, `url.QueryEscape`, and the handlers
  `GetSongsHandler`, `GetSongTextHandler`, `AddSongHandler` from
  `internal/app/http/handler.go`.

Go machine integers are modelled as `Int` (no arithmetic here approaches
2^63, and `strconv.Atoi` range failure is modelled explicitly); Go slices as
`List`; Go `time.Time` values of interest as a calendar-date record whose
zero value mirrors Go's zero `time.Time` (January 1, year 1); fallible Go
code returns `Except`/`Option`; a Go runtime panic (slice bounds violation)
is an explicit error value.
-/

/-- Go `time.Time` restricted to the information this program uses: a
calendar date.  The zero value of Go's `time.Time` is year 1, January 1. -/
structure GoTime where
  year : Nat
  month : Nat
  day : Nat
deriving DecidableEq, Repr

/-- The zero `time.Time` (what `var t time.Time` yields). -/
def GoTime.zero : GoTime := ⟨1, 1, 1⟩

/-- Go `t.IsZero()`: true exactly on the zero instant. -/
def GoTime.isZero (t : GoTime) : Bool := t == GoTime.zero

/-- `models.Song` (internal/app/models/song.go).  `createdAt`/`updatedAt`
are server instants, modelled as abstract integer timestamps. -/
structure Song where
  id : Int
  group : String
  title : String
  releaseDate : GoTime
  text : String
  link : String
  createdAt : Int
  updatedAt : Int
deriving DecidableEq, Repr

/-- `models.SongFilters`: empty string / zero date mean "no constraint"
(the struct declaration is absent from the snapshot; fields and their
sentinel conventions are exactly those read by `Repo.GetWithFilter` and
built by `Handler.GetSongsHandler`). -/
structure SongFilters where
  group : String
  title : String
  releaseDate : GoTime
deriving DecidableEq, Repr

/-- `models.SongDetail`: the enrichment payload from the external Detail
Provider (fields exactly those read by `SongService.CreateSong`). -/
structure SongDetail where
  releaseDate : String
  text : String
  link : String
deriving DecidableEq, Repr

/-- Service-level outcomes of `GetSongText`: the two error sentinels of the
Go code plus an explicit value for a Go runtime panic raised by a slice
expression with out-of-range bounds. -/
inductive SvcErr where
  | songNotFound
  | pageOutOfBounds
  | sliceOutOfRange
deriving DecidableEq, Repr

/-- Go slice expression `xs[lo:hi]` on a slice with `cap = len`: panics
unless `0 ≤ lo ≤ hi ≤ len`. -/
def goSlice (xs : List String) (lo hi : Int) : Except SvcErr (List String) :=
  if 0 ≤ lo ∧ lo ≤ hi ∧ hi ≤ (xs.length : Int) then
    .ok ((xs.drop lo.toNat).take (hi - lo).toNat)
  else
    .error .sliceOutOfRange

/-- First occurrence of the separator in a character list: Go
`strings.Index(s, sep)` for non-empty `sep`, returned as the split
`(before, after-the-separator)`; `none` when the separator does not
occur. -/
def firstSplit (sep : List Char) : List Char → Option (List Char × List Char)
  | [] => none
  | c :: rest =>
    if sep.isPrefixOf (c :: rest) then some ([], (c :: rest).drop sep.length)
    else
      match firstSplit sep rest with
      | none => none
      | some (pre, post) => some (c :: pre, post)

/-- Split on every occurrence of a non-empty separator, left to right,
keeping empty pieces.  The fuel argument only bounds the recursion; one
more than the input length always suffices because every step consumes at
least one character. -/
def splitListGo (sep : List Char) : Nat → List Char → List (List Char)
  | 0, cs => [cs]
  | fuel + 1, cs =>
    match firstSplit sep cs with
    | none => [cs]
    | some (pre, post) => pre :: splitListGo sep fuel post

/-- Go `strings.Split(s, sep)`: all substrings between non-overlapping
occurrences of `sep` scanned left to right, empty pieces (from adjacent
occurrences) preserved; an empty separator explodes the string into
characters. -/
def stringsSplit (s sep : String) : List String :=
  if sep.data.isEmpty then s.data.map (fun c => String.mk [c])
  else (splitListGo sep.data (s.data.length + 1) s.data).map String.mk

/-- `SongService.GetSongText` (internal/app/api/service.go, lines 47-73).
The repository fetch `repo.GetById` is abstracted as a lookup function
`store : Int → Option Song`; `none` is pgx's no-rows case, which
`Repo.GetById` maps to `ErrSongNotFound`. -/
def GetSongText (store : Int → Option Song) (id page pageSize : Int) :
    Except SvcErr (List String) :=
  match store id with
  | none => .error .songNotFound
  | some song =>
    let verses := stringsSplit song.text "\n\n"
    let start : Int := (page - 1) * pageSize
    let stop : Int := start + pageSize
    if start > (verses.length : Int) then
      .error .pageOutOfBounds
    else
      let stop := if stop > (verses.length : Int) then (verses.length : Int) else stop
      goSlice verses start stop

/-- Accumulated decimal value of a digit list (used by `Atoi`); `none`
unless the list is non-empty and all characters are decimal digits. -/
def digitsToNat? (cs : List Char) : Option Nat :=
  match cs with
  | [] => none
  | _ =>
    if cs.all Char.isDigit then
      some (cs.foldl (fun acc c => acc * 10 + (c.toNat - 48)) 0)
    else none

/-- Go `strconv.Atoi` (equivalently `strconv.ParseInt(s, 10, 0)` on a
64-bit platform): optional single sign, then one or more decimal digits,
nothing else; out-of-range values are an error (the handlers treat every
error alike, falling back to a default). -/
def Atoi (s : String) : Option Int :=
  let signDigits : Int × List Char :=
    match s.data with
    | '+' :: rest => (1, rest)
    | '-' :: rest => (-1, rest)
    | cs => (1, cs)
  match digitsToNat? signDigits.2 with
  | none => none
  | some n =>
    let v : Int := signDigits.1 * (n : Int)
    if -(2 ^ 63) ≤ v ∧ v ≤ 2 ^ 63 - 1 then some v else none

/-- Numeric value of a decimal digit character. -/
def digitVal (c : Char) : Nat := c.toNat - 48

/-- Go `isLeap` (time package). -/
def isLeapYear (y : Nat) : Bool := y % 4 == 0 && (y % 100 != 0 || y % 400 == 0)

/-- Go `daysIn` (time package): days in a month, leap-year aware. -/
def daysIn (month year : Nat) : Nat :=
  if month == 2 then (if isLeapYear year then 29 else 28)
  else if month == 4 || month == 6 || month == 9 || month == 11 then 30
  else 31

/-- Go `time.Parse("02.01.2006", s)` restricted to the calendar date it
yields: exactly two day digits, a dot, two month digits, a dot, four year
digits, nothing more; month must be 1..12 and day 1..daysIn(month, year)
(Go's "month out of range" / "day out of range" checks). -/
def ParseDate02012006 (s : String) : Option GoTime :=
  match s.data with
  | [d1, d2, p1, m1, m2, p2, y1, y2, y3, y4] =>
    if d1.isDigit && d2.isDigit && p1 == '.' && m1.isDigit && m2.isDigit && p2 == '.'
        && y1.isDigit && y2.isDigit && y3.isDigit && y4.isDigit then
      let day := 10 * digitVal d1 + digitVal d2
      let month := 10 * digitVal m1 + digitVal m2
      let year := 1000 * digitVal y1 + 100 * digitVal y2 + 10 * digitVal y3 + digitVal y4
      if 1 ≤ month && month ≤ 12 && 1 ≤ day && day ≤ daysIn month year then
        some ⟨year, month, day⟩
      else none
    else none
  | _ => none

/-- UTF-8 encoding of a character as its byte values (Go strings are
byte sequences in UTF-8; `url.QueryEscape` works byte by byte). -/
def utf8Bytes (c : Char) : List Nat :=
  let n := c.toNat
  if n < 0x80 then [n]
  else if n < 0x800 then [0xC0 + n / 0x40, 0x80 + n % 0x40]
  else if n < 0x10000 then [0xE0 + n / 0x1000, 0x80 + n / 0x40 % 0x40, 0x80 + n % 0x40]
  else [0xF0 + n / 0x40000, 0x80 + n / 0x1000 % 0x40, 0x80 + n / 0x40 % 0x40, 0x80 + n % 0x40]

/-- The upper-case hex digit table `"0123456789ABCDEF"` of net/url. -/
def upperHex : List Char :=
  ['0', '1', '2', '3', '4', '5', '6', '7', '8', '9', 'A', 'B', 'C', 'D', 'E', 'F']

/-- Hex digit character for a value below 16. -/
def upperHexDigit (n : Nat) : Char := upperHex.getD n '0'

/-- Go `shouldEscape(c, encodeQueryComponent) = false`: the bytes
`url.QueryEscape` leaves unescaped (alphanumerics and `-`, `_`, `.`, `~`). -/
def isUnreservedQueryByte (b : Nat) : Bool :=
  (48 ≤ b && b ≤ 57) || (65 ≤ b && b ≤ 90) || (97 ≤ b && b ≤ 122) ||
  b == 45 || b == 95 || b == 46 || b == 126

/-- One byte of `url.QueryEscape` output: kept verbatim if unreserved,
`' '` becomes `'+'`, anything else becomes `%XX` with upper-case hex. -/
def escapeQueryByte (b : Nat) : List Char :=
  if isUnreservedQueryByte b then [Char.ofNat b]
  else if b == 32 then ['+']
  else ['%', upperHexDigit (b / 16), upperHexDigit (b % 16)]

/-- Go `url.QueryEscape`. -/
def QueryEscape (s : String) : String :=
  ⟨(s.data.flatMap (fun c => (utf8Bytes c).flatMap escapeQueryByte))⟩

/-- Characters that may appear in a percent-encoded query value:
unreserved bytes kept verbatim, `'+'` (encoded space), and `'%'` with hex
digits (hex digits are alphanumeric, hence already unreserved). -/
def safeQueryCodepoint (n : Nat) : Bool :=
  isUnreservedQueryByte n || n == 43 || n == 37

/-- The outbound Detail Provider request built by `Handler.AddSongHandler`
(internal/app/http/handler.go, lines 307-311): HTTP method and URL of the
`http.Get` call on `mockserverURL`. -/
def AddSongDetailRequest (externalAPI group song : String) : String × String :=
  ("GET", externalAPI ++ "/info?group=" ++ QueryEscape group ++ "&song=" ++ QueryEscape song)

/-- Repository error sentinel `ErrSongNotFound`
(internal/app/repository/postgresql/repo.go). -/
inductive RepoErr where
  | songNotFound
deriving DecidableEq, Repr

/-- The `songs` table together with its `SERIAL` id sequence: the state the
repository's SQL statements act on. -/
structure DB where
  rows : List Song
  nextId : Int
deriving DecidableEq, Repr

/-- `Repo.Create` (repo.go, lines 180-196): `INSERT ... VALUES
($1,...,$5, NOW(), NOW()) RETURNING id, created_at, updated_at`, scanned
back into the argument song.  `now` is the server instant `NOW()`. -/
def RepoCreate (db : DB) (now : Int) (song : Song) : Song × DB :=
  let persisted := { song with id := db.nextId, createdAt := now, updatedAt := now }
  (persisted, { rows := db.rows ++ [persisted], nextId := db.nextId + 1 })

/-- Effect of the `UPDATE songs SET ...` assignment list on one matching
row: every payload column is written, `updated_at = NOW()`, while `id` and
`created_at` are not in the SET list. -/
def updateRowWith (song : Song) (now : Int) (r : Song) : Song :=
  { r with
    group := song.group, title := song.title, releaseDate := song.releaseDate,
    text := song.text, link := song.link, updatedAt := now }

/-- `Repo.Update` (repo.go, lines 131-153): `UPDATE ... WHERE id = $6
RETURNING *`; `QueryRow.Scan` yields pgx's no-rows error when nothing
matched, mapped to `ErrSongNotFound`, and the first returned row
otherwise. -/
def RepoUpdate (db : DB) (now : Int) (id : Int) (song : Song) :
    Except RepoErr Song × DB :=
  match db.rows.find? (fun r => r.id == id) with
  | none => (.error .songNotFound, db)
  | some old =>
    (.ok (updateRowWith song now old),
     { db with rows := db.rows.map (fun r => if r.id == id then updateRowWith song now r else r) })

/-- `Repo.Delete` (repo.go, lines 157-178): `DELETE FROM songs WHERE id =
$1`; `ErrSongNotFound` exactly when the affected-row count is zero. -/
def RepoDelete (db : DB) (id : Int) : Except RepoErr Unit × DB :=
  let remaining := db.rows.filter (fun r => !(r.id == id))
  let rowsAffected := db.rows.length - remaining.length
  if rowsAffected == 0 then (.error .songNotFound, db)
  else (.ok (), { db with rows := remaining })

/-- Error outcomes of `SongService.CreateSong` as distinguished by the
spec: the `time.Parse` failure.  (Store failures are not modelled; the
relational state transition itself cannot fail.) -/
inductive CreateErr where
  | dateParseFailed
deriving DecidableEq, Repr

/-- `SongService.CreateSong` (internal/app/api/service.go, lines 87-113):
parse the enrichment payload's release date with layout "02.01.2006";
on failure return the parse error without touching the store; on success
assemble the new `models.Song` (user-supplied group/title, fetched
text/link, remaining fields zero) and persist it via `Repo.Create`. -/
def CreateSong (db : DB) (now : Int) (group song : String) (songDetails : SongDetail) :
    Except CreateErr Song × DB :=
  match ParseDate02012006 songDetails.releaseDate with
  | none => (.error .dateParseFailed, db)
  | some releaseDate =>
    let newSong : Song :=
      { id := 0, group := group, title := song, releaseDate := releaseDate,
        text := songDetails.text, link := songDetails.link, createdAt := 0, updatedAt := 0 }
    let created := RepoCreate db now newSong
    (.ok created.1, created.2)

/-- A parameter bound to a PostgreSQL placeholder `$n`: the Go call passes
strings (group, title), a `time.Time` (release date) and ints (limit,
offset). -/
inductive SqlArg where
  | s (v : String)
  | t (v : GoTime)
  | i (v : Int)
deriving DecidableEq, Repr

/-- The raw base query of `Repo.GetWithFilter` (repo.go, lines 42-43),
byte for byte including the line break of the Go raw string literal. -/
def baseSelect : String :=
  "SELECT id, \"group\", song, release_date, text, link, created_at, updated_at \n           FROM songs WHERE 1=1"

/-- `Repo.GetWithFilter` (repo.go, lines 39-70), its SQL-composition part:
the final query text and the positional argument list handed to
`pool.Query`.  The triple threaded through the `if` blocks is
(query, args, argIndex), exactly as in the Go code. -/
def GetWithFilterQuery (filter : SongFilters) (page pageSize : Int) :
    String × List SqlArg :=
  let s0 : String × List SqlArg × Nat := (baseSelect, [], 1)
  let s1 := if filter.group != "" then
      (s0.1 ++ " AND \"group\" = $" ++ toString s0.2.2, s0.2.1 ++ [SqlArg.s filter.group], s0.2.2 + 1)
    else s0
  let s2 := if filter.title != "" then
      (s1.1 ++ " AND song = $" ++ toString s1.2.2, s1.2.1 ++ [SqlArg.s filter.title], s1.2.2 + 1)
    else s1
  let s3 := if !filter.releaseDate.isZero then
      (s2.1 ++ " AND release_date = $" ++ toString s2.2.2, s2.2.1 ++ [SqlArg.t filter.releaseDate], s2.2.2 + 1)
    else s2
  let offset : Int := (page - 1) * pageSize
  (s3.1 ++ " ORDER BY release_date DESC LIMIT $" ++ toString s3.2.2 ++
     " OFFSET $" ++ toString (s3.2.2 + 1),
   s3.2.1 ++ [SqlArg.i pageSize, SqlArg.i offset])

/-- Spec-side description (for the refinement claim about the list query):
the predicates contributed by the filter, in filter-field order — one
`(column, argument)` pair per non-empty text field / non-zero date field,
with the `group` column quoted. -/
def specFilterPredicates (f : SongFilters) : List (String × SqlArg) :=
  (if f.group ≠ "" then [("\"group\"", SqlArg.s f.group)] else []) ++
  (if f.title ≠ "" then [("song", SqlArg.s f.title)] else []) ++
  (if ¬ f.releaseDate.isZero then [("release_date", SqlArg.t f.releaseDate)] else [])

/-- Spec-side description: the WHERE-clause fragment, one parameterized
`AND column = $n` per predicate with placeholders numbered consecutively
from `n`. -/
def specWhereClause : Nat → List (String × SqlArg) → String
  | _, [] => ""
  | n, (col, _) :: rest => " AND " ++ col ++ " = $" ++ toString n ++ specWhereClause (n + 1) rest

/-- Spec-side description of the whole list query: base SELECT, one
predicate per set filter field numbered from `$1`, `ORDER BY release_date
DESC`, and `LIMIT pageSize OFFSET (page-1)*pageSize` bound to the next two
placeholders. -/
def specListQuery (f : SongFilters) (page pageSize : Int) : String × List SqlArg :=
  let preds := specFilterPredicates f
  (baseSelect ++ specWhereClause 1 preds ++ " ORDER BY release_date DESC LIMIT $" ++
     toString (preds.length + 1) ++ " OFFSET $" ++ toString (preds.length + 2),
   preds.map Prod.snd ++ [SqlArg.i pageSize, SqlArg.i ((page - 1) * pageSize)])

/-- Response body at the granularity the HTTP edge distinguishes:
`http.Error` plain-text bodies versus the JSON encodings the handlers
emit (a JSON string, a JSON array of strings, a JSON array of Song
objects, a single Song object). -/
inductive RespBody where
  | text (s : String)
  | jsonStr (s : String)
  | jsonStringArray (l : List String)
  | jsonSongArray (l : List Song)
  | jsonSong (s : Song)
deriving DecidableEq, Repr

/-- An HTTP response as produced by the handlers. -/
structure Resp where
  status : Nat
  contentType : String
  body : RespBody
deriving DecidableEq, Repr

/-- Go `http.Error(w, msg, code)`: plain-text content type and the message
as body. -/
def httpError (msg : String) (code : Nat) : Resp :=
  { status := code, contentType := "text/plain; charset=utf-8", body := .text msg }

/-- A handler run either writes a response or aborts in a runtime panic. -/
inductive HandlerResult where
  | resp (r : Resp)
  | panicked
deriving DecidableEq, Repr

/-- `Handler.GetSongTextHandler` (internal/app/http/handler.go, lines
121-171): id from the path (400 on parse failure), `page`/`page_size`
from the query with silent defaults 1 and 10 on any `strconv.Atoi`
error (a missing parameter reads as `""`), then the service call with
its error-to-status mapping. -/
def GetSongTextHandler (store : Int → Option Song) (idStr pageStr pageSizeStr : String) :
    HandlerResult :=
  match Atoi idStr with
  | none => .resp (httpError "Неправильный формат ID" 400)
  | some id =>
    let page := (Atoi pageStr).getD 1
    let pageSize := (Atoi pageSizeStr).getD 10
    match GetSongText store id page pageSize with
    | .error .songNotFound => .resp (httpError "Песня не найдена" 404)
    | .error .pageOutOfBounds =>
        .resp (httpError "Страница выходит за пределы доступного диапазона" 400)
    | .error .sliceOutOfRange => .panicked
    | .ok verses =>
        .resp { status := 200, contentType := "application/json", body := .jsonStringArray verses }

/-- `Handler.GetSongsHandler` (internal/app/http/handler.go, lines
50-105): optional `release_date` filter parsed with layout "02.01.2006"
(400 on failure), `page`/`page_size` with silent defaults, the service
list call (500 on error), and the empty-result special case that encodes
a JSON string instead of an array.  The service is abstracted as a
function that may fail. -/
def GetSongsHandler (svc : SongFilters → Int → Int → Except Unit (List Song))
    (group title releaseDateStr pageStr pageSizeStr : String) : Resp :=
  let rdParsed : Option GoTime :=
    if releaseDateStr == "" then some GoTime.zero else ParseDate02012006 releaseDateStr
  match rdParsed with
  | none => httpError "Неправильный формат даты" 400
  | some releaseDate =>
    let filter : SongFilters := ⟨group, title, releaseDate⟩
    let page := (Atoi pageStr).getD 1
    let pageSize := (Atoi pageSizeStr).getD 10
    match svc filter page pageSize with
    | .error _ => httpError "Проблема на сервере" 500
    | .ok songs =>
      if songs.length == 0 then
        { status := 200, contentType := "application/json",
          body := .jsonStr "Песня не найдена/Список песен пуст" }
      else
        { status := 200, contentType := "application/json", body := .jsonSongArray songs }

/-- Example song for witnesses: the spec's verse-pagination scenario
(`text = "a\n\nb\n\nc\n\nd\n\ne"`, five verses). -/
def songEx : Song :=
  { id := 1, group := "g", title := "t", releaseDate := ⟨2006, 7, 16⟩,
    text := "a\n\nb\n\nc\n\nd\n\ne", link := "l", createdAt := 0, updatedAt := 0 }

/-- Example store for witnesses: exactly one song, with id 1. -/
def storeEx : Int → Option Song := fun i => if i == 1 then some songEx else none

/-- Example service for witnesses: an empty catalog (every list query
succeeds with no rows). -/
def svcEmpty : SongFilters → Int → Int → Except Unit (List Song) := fun _ _ _ => .ok []

/-- Example database for witnesses: one row, next id 2. -/
def dbEx : DB := { rows := [songEx], nextId := 2 }

/-- Example update payload for witnesses. -/
def updatePayloadEx : Song :=
  { id := 0, group := "G2", title := "T2", releaseDate := ⟨2020, 1, 2⟩,
    text := "x", link := "y", createdAt := 123, updatedAt := 456 }

/-- C1: for every song found by id and every page ≥ 1, pageSize ≥ 1,
`GetSongText` splits the song's text on the literal delimiter "\n\n"
(preserving empty elements and order), computes start = (page-1)*pageSize
over the verse count N, fails with `PageOutOfBounds` exactly when
start > N (start = N falls into the ok case, where the slice is empty),
and otherwise returns the subsequence [start, min(start+pageSize, N))
— here written as drop start then take pageSize, which is that
subsequence. -/
theorem GetSongText_pagination (store : Int → Option Song) (id page pageSize : Int)
    (song : Song) (hfound : store id = some song)
    (hpage : 1 ≤ page) (hsize : 1 ≤ pageSize) :
    ((page - 1) * pageSize > ((stringsSplit song.text "\n\n").length : Int) →
      GetSongText store id page pageSize = .error .pageOutOfBounds) ∧
    ((page - 1) * pageSize ≤ ((stringsSplit song.text "\n\n").length : Int) →
      GetSongText store id page pageSize =
        .ok (((stringsSplit song.text "\n\n").drop ((page - 1) * pageSize).toNat).take
              pageSize.toNat)) := by
  have hstart : 0 ≤ (page - 1) * pageSize := mul_nonneg (by omega) (by omega)
  constructor
  · intro hgt
    simp only [GetSongText, hfound, goSlice]
    rw [if_pos hgt]
  · intro hle
    simp only [GetSongText, hfound, goSlice]
    rw [if_neg (by omega)]
    split
    · rename_i hclamp
      rw [if_pos ⟨hstart, by omega, by omega⟩]
      congr 1
      have hlen : ((stringsSplit song.text "\n\n").drop ((page - 1) * pageSize).toNat).length
          = (stringsSplit song.text "\n\n").length - ((page - 1) * pageSize).toNat :=
        List.length_drop _ _
      rw [List.take_of_length_le (by omega), List.take_of_length_le (by omega)]
    · rename_i hclamp
      rw [if_pos ⟨hstart, by omega, by omega⟩]
      congr 2
      omega

/-- Witness for C1 at the spec's concrete scenario: page 2 of size 2 over
five verses yields verses three and four. -/
theorem GetSongText_pagination_witness :
    GetSongText storeEx 1 2 2 = .ok ["c", "d"] := by
  have h := (GetSongText_pagination storeEx 1 2 2 songEx (by decide) (by decide)
      (by decide)).2 (by decide)
  rw [h]
  rfl

/-- C2: with page = 1 and pageSize = N for any N at least the verse
count, `GetSongText` returns exactly the full split of the text. -/
theorem GetSongText_first_page_all (store : Int → Option Song) (id : Int)
    (song : Song) (N : Int) (hfound : store id = some song)
    (hN : ((stringsSplit song.text "\n\n").length : Int) ≤ N) :
    GetSongText store id 1 N = .ok (stringsSplit song.text "\n\n") := by
  simp only [GetSongText, hfound, goSlice]
  rw [if_neg (by omega)]
  have hz : ((1 : Int) - 1) * N = 0 := by ring
  split
  · rename_i h
    rw [if_pos ⟨by omega, by omega, by omega⟩]
    simp only [hz]
    norm_num
  · rename_i h
    rw [if_pos ⟨by omega, by omega, by omega⟩]
    simp only [hz]
    norm_num
    omega

/-- Witness for C2: pageSize 5 on the five-verse song returns all
verses. -/
theorem GetSongText_first_page_all_witness :
    GetSongText storeEx 1 1 5 = .ok ["a", "b", "c", "d", "e"] := by
  have h := GetSongText_first_page_all storeEx 1 songEx 5 (by decide) (by decide)
  rw [h]
  rfl

/-- C9: verse pagination is not total: for an existing song, any page ≤ 0
with pageSize ≥ 1 makes start = (page-1)*pageSize negative, the only
bounds guard (start > verse count) does not fire, and the slice
`verses[start:end]` is evaluated with a negative lower bound — a runtime
panic; it is reachable through the HTTP edge, which defaults `page` only
on parse failure and never clamps explicit non-positive values. -/
theorem GetSongText_nonpositive_page_panics (store : Int → Option Song)
    (id page pageSize : Int) (song : Song)
    (hfound : store id = some song) (hpage : page ≤ 0) (hsize : 1 ≤ pageSize) :
    GetSongText store id page pageSize = .error .sliceOutOfRange ∧
    ∀ idStr pageStr pageSizeStr,
      Atoi idStr = some id → Atoi pageStr = some page → Atoi pageSizeStr = some pageSize →
      GetSongTextHandler store idStr pageStr pageSizeStr = .panicked := by
  have hstart : (page - 1) * pageSize < 0 := mul_neg_of_neg_of_pos (by omega) (by omega)
  have hmain : GetSongText store id page pageSize = .error .sliceOutOfRange := by
    simp only [GetSongText, hfound, goSlice]
    rw [if_neg (by omega)]
    split
    · rw [if_neg (by omega)]
    · rw [if_neg (by omega)]
  refine ⟨hmain, ?_⟩
  intro idStr pageStr pageSizeStr hid hp hps
  simp only [GetSongTextHandler, hid, hp, hps, Option.getD_some, hmain]

/-- Witness for C9: page 0 with page size 2 on the example song panics,
both at the service and through the handler with raw query strings. -/
theorem GetSongText_nonpositive_page_panics_witness :
    GetSongText storeEx 1 0 2 = .error .sliceOutOfRange ∧
    GetSongTextHandler storeEx "1" "0" "2" = .panicked := by
  have h := GetSongText_nonpositive_page_panics storeEx 1 0 2 songEx (by decide)
      (by decide) (by decide)
  exact ⟨h.1, h.2 "1" "0" "2" (by decide) (by decide) (by decide)⟩

/-- With the default pagination (page 1, page size 10) the verse service
never reports a pagination error and never panics: it either misses the
song or succeeds. -/
theorem GetSongText_defaults_ok (store : Int → Option Song) (id : Int) :
    GetSongText store id 1 10 = .error .songNotFound ∨
    ∃ l, GetSongText store id 1 10 = .ok l := by
  unfold GetSongText
  cases hs : store id with
  | none => exact Or.inl rfl
  | some song =>
    right
    simp only [goSlice]
    rw [if_neg (by omega)]
    split
    · rw [if_pos ⟨by omega, by omega, by omega⟩]
      exact ⟨_, rfl⟩
    · rw [if_pos ⟨by omega, by omega, by omega⟩]
      exact ⟨_, rfl⟩

/-- C8: on both paginated endpoints, a missing (read as "") or unparsable
`page` / `page_size` query parameter is silently replaced by the default
1 / 10 — the handler behaves exactly as if the default had been passed —
and these two parameters never cause a 400: with both defaulted, the only
400 of the text endpoint is the malformed-id error, and the only 400 of
the list endpoint is the malformed-release-date error. -/
theorem pagination_params_silent_defaults (store : Int → Option Song)
    (svc : SongFilters → Int → Int → Except Unit (List Song))
    (idStr group title releaseDateStr pageStr pageSizeStr : String) :
    (Atoi pageStr = none →
      GetSongTextHandler store idStr pageStr pageSizeStr
        = GetSongTextHandler store idStr "1" pageSizeStr ∧
      GetSongsHandler svc group title releaseDateStr pageStr pageSizeStr
        = GetSongsHandler svc group title releaseDateStr "1" pageSizeStr) ∧
    (Atoi pageSizeStr = none →
      GetSongTextHandler store idStr pageStr pageSizeStr
        = GetSongTextHandler store idStr pageStr "10" ∧
      GetSongsHandler svc group title releaseDateStr pageStr pageSizeStr
        = GetSongsHandler svc group title releaseDateStr pageStr "10") ∧
    (Atoi pageStr = none → Atoi pageSizeStr = none →
      (∀ r, GetSongTextHandler store idStr pageStr pageSizeStr = .resp r →
        r.status = 400 → Atoi idStr = none) ∧
      ((GetSongsHandler svc group title releaseDateStr pageStr pageSizeStr).status = 400 →
        releaseDateStr ≠ "" ∧ ParseDate02012006 releaseDateStr = none)) := by
  have h1 : Atoi "1" = some 1 := by decide
  have h10 : Atoi "10" = some 10 := by decide
  refine ⟨?_, ?_, ?_⟩
  · intro hp
    constructor
    · simp only [GetSongTextHandler, hp, h1, Option.getD_none, Option.getD_some]
    · simp only [GetSongsHandler, hp, h1, Option.getD_none, Option.getD_some]
  · intro hps
    constructor
    · simp only [GetSongTextHandler, hps, h10, Option.getD_none, Option.getD_some]
    · simp only [GetSongsHandler, hps, h10, Option.getD_none, Option.getD_some]
  · intro hp hps
    constructor
    · intro r hr hstatus
      by_contra hid
      obtain ⟨id, hid'⟩ := Option.ne_none_iff_exists'.mp hid
      rw [GetSongTextHandler, hid'] at hr
      simp only [hp, hps, Option.getD_none] at hr
      rcases GetSongText_defaults_ok store id with hres | ⟨l, hres⟩ <;>
        rw [hres] at hr
      · injection hr with h2
        subst h2
        simp [httpError] at hstatus
      · injection hr with h2
        subst h2
        simp at hstatus
    · intro hstatus
      rw [GetSongsHandler] at hstatus
      by_cases hrd : releaseDateStr == ""
      · rw [if_pos hrd] at hstatus
        cases hsvc : svc ⟨group, title, GoTime.zero⟩ ((Atoi pageStr).getD 1)
            ((Atoi pageSizeStr).getD 10) with
        | error e => simp [hsvc, httpError] at hstatus
        | ok songs =>
          simp only [hsvc] at hstatus
          by_cases hlen : songs.length == 0 <;> simp [hlen] at hstatus
      · rw [if_neg hrd] at hstatus
        cases hpd : ParseDate02012006 releaseDateStr with
        | none => exact ⟨by simpa using hrd, rfl⟩
        | some d =>
          rw [hpd] at hstatus
          cases hsvc : svc ⟨group, title, d⟩ ((Atoi pageStr).getD 1)
              ((Atoi pageSizeStr).getD 10) with
          | error e => simp [hsvc, httpError] at hstatus
          | ok songs =>
            simp only [hsvc] at hstatus
            by_cases hlen : songs.length == 0 <;> simp [hlen] at hstatus

/-- Witness for C8: with an unparsable `page` ("zzz") and a missing
`page_size` (""), both handlers behave exactly as with the default page
"1". -/
theorem pagination_params_silent_defaults_witness :
    GetSongTextHandler storeEx "1" "zzz" "" = GetSongTextHandler storeEx "1" "1" "" ∧
    GetSongsHandler svcEmpty "g" "t" "" "zzz" "" = GetSongsHandler svcEmpty "g" "t" "" "1" "" :=
  (pagination_params_silent_defaults storeEx svcEmpty "1" "g" "t" "" "zzz" "").1 (by decide)

/-- C10: when the list query matches no songs, GET /songs responds 200
with Content-Type application/json and a body that is the single JSON
string "Песня не найдена/Список песен пуст" — a body of a different JSON
type than the array of Song objects returned for a non-empty result. -/
theorem GetSongsHandler_empty_catalog
    (svc : SongFilters → Int → Int → Except Unit (List Song))
    (group title releaseDateStr pageStr pageSizeStr : String)
    (hdate : releaseDateStr = "" ∨ (ParseDate02012006 releaseDateStr).isSome)
    (hsvc : ∀ f p ps, svc f p ps = .ok []) :
    GetSongsHandler svc group title releaseDateStr pageStr pageSizeStr =
      { status := 200, contentType := "application/json",
        body := .jsonStr "Песня не найдена/Список песен пуст" } ∧
    ∀ l : List Song,
      RespBody.jsonStr "Песня не найдена/Список песен пуст" ≠ RespBody.jsonSongArray l := by
  constructor
  · rw [GetSongsHandler]
    rcases hdate with hrd | hrd
    · subst hrd
      rw [if_pos (by decide)]
      simp only [hsvc, List.length_nil]
      rfl
    · by_cases hempty : releaseDateStr == ""
      · rw [if_pos hempty]
        simp only [hsvc, List.length_nil]
        rfl
      · rw [if_neg hempty]
        obtain ⟨d, hd⟩ := Option.isSome_iff_exists.mp hrd
        rw [hd]
        simp only [hsvc, List.length_nil]
        rfl
  · intro l h
    exact RespBody.noConfusion h

/-- Witness for C10: an always-empty catalog service yields the JSON
string body with status 200. -/
theorem GetSongsHandler_empty_catalog_witness :
    GetSongsHandler svcEmpty "Muse" "SBH" "" "1" "10" =
      { status := 200, contentType := "application/json",
        body := .jsonStr "Песня не найдена/Список песен пуст" } :=
  (GetSongsHandler_empty_catalog svcEmpty "Muse" "SBH" "" "1" "10" (Or.inl rfl)
    (fun _ _ _ => rfl)).1

/-- C4: the create pipeline parses the enrichment payload's release date
with the exact Go layout "02.01.2006" (DD.MM.YYYY); a parse failure
returns the date-parse error with the store untouched; on success the
persisted song carries exactly the user-supplied group and title, the
fetched text and link, the parsed date, the server-assigned id, and the
creation instant in both timestamps, and it is appended to the store. -/
theorem CreateSong_spec (db : DB) (now : Int) (group title : String) (d : SongDetail) :
    (ParseDate02012006 d.releaseDate = none →
      CreateSong db now group title d = (.error .dateParseFailed, db)) ∧
    (∀ rd, ParseDate02012006 d.releaseDate = some rd →
      CreateSong db now group title d =
        (.ok { id := db.nextId, group := group, title := title, releaseDate := rd,
               text := d.text, link := d.link, createdAt := now, updatedAt := now },
         { rows := db.rows ++
             [{ id := db.nextId, group := group, title := title, releaseDate := rd,
                text := d.text, link := d.link, createdAt := now, updatedAt := now }],
           nextId := db.nextId + 1 })) := by
  constructor
  · intro h
    simp only [CreateSong, h]
  · intro rd h
    simp only [CreateSong, h, RepoCreate]

/-- Witness for C4: the spec's create scenario, release date
"16.07.2006", persisted into an empty store at instant 99. -/
theorem CreateSong_spec_witness :
    CreateSong ⟨[], 1⟩ 99 "Muse" "Supermassive Black Hole"
        ⟨"16.07.2006", "v1\n\nv2", "http://x"⟩ =
      (.ok { id := 1, group := "Muse", title := "Supermassive Black Hole",
             releaseDate := ⟨2006, 7, 16⟩, text := "v1\n\nv2", link := "http://x",
             createdAt := 99, updatedAt := 99 },
       { rows := [{ id := 1, group := "Muse", title := "Supermassive Black Hole",
                    releaseDate := ⟨2006, 7, 16⟩, text := "v1\n\nv2", link := "http://x",
                    createdAt := 99, updatedAt := 99 }],
         nextId := 2 }) :=
  (CreateSong_spec ⟨[], 1⟩ 99 "Muse" "Supermassive Black Hole"
      ⟨"16.07.2006", "v1\n\nv2", "http://x"⟩).2 ⟨2006, 7, 16⟩ (by decide)

/-- C5: an update found by id returns the updated row, which keeps the
row's id and creation timestamp, carries the payload's data columns, and
has its update timestamp set to the current server instant; rows with a
different id are untouched; when no row matches, the result is the
not-found error and the store is unchanged. -/
theorem RepoUpdate_spec (db : DB) (now id : Int) (song : Song) :
    (db.rows.find? (fun r => r.id == id) = none →
      RepoUpdate db now id song = (.error .songNotFound, db)) ∧
    (∀ old, db.rows.find? (fun r => r.id == id) = some old →
      (RepoUpdate db now id song).1 = .ok (updateRowWith song now old) ∧
      (updateRowWith song now old).id = id ∧
      (updateRowWith song now old).createdAt = old.createdAt ∧
      (updateRowWith song now old).updatedAt = now ∧
      (updateRowWith song now old).group = song.group ∧
      (updateRowWith song now old).title = song.title ∧
      (updateRowWith song now old).releaseDate = song.releaseDate ∧
      (updateRowWith song now old).text = song.text ∧
      (updateRowWith song now old).link = song.link ∧
      (RepoUpdate db now id song).2.rows =
        db.rows.map (fun r => if r.id == id then updateRowWith song now r else r) ∧
      (∀ r ∈ db.rows, r.id ≠ id → r ∈ (RepoUpdate db now id song).2.rows)) := by
  constructor
  · intro h
    simp only [RepoUpdate, h]
  · intro old h
    have hid : old.id = id := by
      have := List.find?_some h
      simpa using this
    refine ⟨?_, ?_, rfl, rfl, rfl, rfl, rfl, rfl, rfl, ?_, ?_⟩
    · simp only [RepoUpdate, h]
    · simp [updateRowWith, hid]
    · simp only [RepoUpdate, h]
    · intro r hr hne
      simp only [RepoUpdate, h]
      refine List.mem_map.mpr ⟨r, hr, ?_⟩
      rw [if_neg (by simpa using hne)]

/-- Witness for C5: updating the example row (id 1) at instant 7 keeps id
and createdAt and stamps updatedAt. -/
theorem RepoUpdate_spec_witness :
    (RepoUpdate dbEx 7 1 updatePayloadEx).1 =
      .ok { id := 1, group := "G2", title := "T2", releaseDate := ⟨2020, 1, 2⟩,
            text := "x", link := "y", createdAt := 0, updatedAt := 7 } := by
  have h := (RepoUpdate_spec dbEx 7 1 updatePayloadEx).2 songEx (by decide)
  rw [h.1]
  rfl

/-- C6: Delete succeeds exactly when the affected-row count is nonzero
(some row carries the id) and returns the not-found error when it is
zero; consequently a second delete of the same id immediately after a
successful delete returns not-found. -/
theorem RepoDelete_spec (db : DB) (id : Int) :
    ((∃ r ∈ db.rows, r.id = id) →
      RepoDelete db id =
        (.ok (), { db with rows := db.rows.filter (fun r => !(r.id == id)) })) ∧
    ((¬ ∃ r ∈ db.rows, r.id = id) → RepoDelete db id = (.error .songNotFound, db)) ∧
    (∀ db', RepoDelete db id = (.ok (), db') →
      RepoDelete db' id = (.error .songNotFound, db')) := by
  have hfail : ∀ dbb : DB, (∀ r ∈ dbb.rows, r.id ≠ id) →
      RepoDelete dbb id = (.error .songNotFound, dbb) := by
    intro dbb hall
    have heq : dbb.rows.filter (fun r => !(r.id == id)) = dbb.rows :=
      List.filter_eq_self.mpr (fun r hr => by simpa using hall r hr)
    simp [RepoDelete, heq]
  refine ⟨?_, ?_, ?_⟩
  · rintro ⟨r, hr, hrid⟩
    have hne : ¬ ((db.rows.length -
        (db.rows.filter (fun r => !(r.id == id))).length == 0) = true) := by
      intro h0
      have h0' : db.rows.length - (db.rows.filter (fun r => !(r.id == id))).length = 0 :=
        beq_iff_eq.mp h0
      have hsub := List.length_filter_le (fun r => !(r.id == id)) db.rows
      have hfeq : db.rows.filter (fun r => !(r.id == id)) = db.rows :=
        (List.filter_sublist _).eq_of_length (by omega)
      have hp := List.filter_eq_self.mp hfeq r hr
      simp [hrid] at hp
    simp only [RepoDelete]
    rw [if_neg hne]
  · intro h
    exact hfail db (fun r hr hrid => h ⟨r, hr, hrid⟩)
  · intro db' hdel
    simp only [RepoDelete] at hdel
    by_cases hc : (db.rows.length -
        (db.rows.filter (fun r => !(r.id == id))).length == 0) = true
    · rw [if_pos hc] at hdel
      simp at hdel
    · rw [if_neg hc] at hdel
      have hdb' : db' = { db with rows := db.rows.filter (fun r => !(r.id == id)) } := by
        have := congrArg Prod.snd hdel
        simpa using this.symm
      subst hdb'
      apply hfail
      intro r hr
      have hp := List.of_mem_filter hr
      simpa using hp

/-- Witness for C6: deleting the only row (id 1) succeeds and empties the
store; deleting it again is not-found. -/
theorem RepoDelete_spec_witness :
    RepoDelete dbEx 1 = (.ok (), { rows := [], nextId := 2 }) ∧
    RepoDelete { rows := [], nextId := 2 } 1 =
      (.error .songNotFound, { rows := [], nextId := 2 }) := by
  have h := RepoDelete_spec dbEx 1
  have h1 := h.1 ⟨songEx, by decide, by decide⟩
  have hfirst : RepoDelete dbEx 1 = (.ok (), ({ rows := [], nextId := 2 } : DB)) := by
    rw [h1]
    rfl
  exact ⟨hfirst, h.2.2 { rows := [], nextId := 2 } hfirst⟩

/-- C3: the query composed by the Store's list operation is exactly the
spec's description: the base SELECT, one parameterized `AND column = $n`
predicate per non-empty text field / non-zero date field (group quoted,
placeholders numbered consecutively from $1 in filter-field order),
`ORDER BY release_date DESC`, and `LIMIT pageSize OFFSET
(page-1)*pageSize` bound to the following two placeholders; an all-empty
filter contributes no predicate. -/
theorem GetWithFilterQuery_matches_spec (f : SongFilters) (page pageSize : Int) :
    GetWithFilterQuery f page pageSize = specListQuery f page pageSize := by
  rcases f with ⟨g, t, rd⟩
  by_cases hg : g = "" <;> by_cases ht : t = "" <;> by_cases hd : rd.isZero = true <;>
    simp [GetWithFilterQuery, specListQuery, specFilterPredicates, specWhereClause,
      hg, ht, hd, String.append_assoc]

/-- Every character of an `upperHexDigit` is itself a safe query
character. -/
theorem upperHexDigit_safe (n : Nat) : safeQueryCodepoint (upperHexDigit n).toNat = true := by
  unfold upperHexDigit
  rcases Nat.lt_or_ge n 16 with h | h
  · interval_cases n <;> decide
  · rw [List.getD_eq_default _ _ (by simpa [upperHex] using h)]
    decide

/-- Each escaped byte expands only to safe query characters. -/
theorem escapeQueryByte_safe (b : Nat) :
    ∀ ch ∈ escapeQueryByte b, safeQueryCodepoint ch.toNat = true := by
  intro ch hch
  unfold escapeQueryByte at hch
  split at hch
  · rename_i hb
    simp only [List.mem_singleton] at hch
    subst hch
    have hble : b ≤ 126 := by
      unfold isUnreservedQueryByte at hb
      simp at hb
      omega
    have hvd : b.isValidChar := Or.inl (by omega)
    have hto : (Char.ofNat b).toNat = b := by
      simp [Char.ofNat, hvd, Char.ofNatAux, Char.toNat, UInt32.toNat, BitVec.toNat_ofNatLt]
    rw [hto]
    unfold safeQueryCodepoint
    rw [hb]
    rfl
  · split at hch
    · simp only [List.mem_singleton] at hch
      subst hch
      decide
    · simp only [List.mem_cons, List.mem_singleton] at hch
      rcases hch with h1 | h2 | h3
      · subst h1; decide
      · subst h2; exact upperHexDigit_safe _
      · rcases h3 with h3 | h3
        · subst h3; exact upperHexDigit_safe _
        · cases h3

/-- `QueryEscape` output consists only of safe query characters: every
reserved byte of the input (including `&`, `=`, and all non-ASCII bytes)
has been percent-encoded, and spaces became `+`. -/
theorem queryEscape_safe (s : String) :
    ∀ ch ∈ (QueryEscape s).data, safeQueryCodepoint ch.toNat = true := by
  intro ch hch
  unfold QueryEscape at hch
  simp only [List.mem_flatMap] at hch
  obtain ⟨c, hc, b, hb, hch⟩ := hch
  exact escapeQueryByte_safe b ch hch

/-- C7: the create pipeline's outbound Detail Provider request is GET
{externalBase}/info?group={group}&song={title} with both query parameter
values percent-encoded: each escaped value contains only unreserved
characters, `+`, `%` and hex digits. -/
theorem AddSong_request_encoded (base g t : String) :
    AddSongDetailRequest base g t =
      ("GET", base ++ "/info?group=" ++ QueryEscape g ++ "&song=" ++ QueryEscape t) ∧
    (∀ ch ∈ (QueryEscape g).data, safeQueryCodepoint ch.toNat = true) ∧
    (∀ ch ∈ (QueryEscape t).data, safeQueryCodepoint ch.toNat = true) :=
  ⟨rfl, queryEscape_safe g, queryEscape_safe t⟩

/-- Witness for C7: concrete group "a b" and title "c&d" produce the
escaped URL, and the encoded space (`+`) is a safe query character. -/
theorem AddSong_request_encoded_witness :
    AddSongDetailRequest "http://x" "a b" "c&d" =
      ("GET", "http://x/info?group=a+b&song=c%26d") ∧
    safeQueryCodepoint (Char.toNat '+') = true := by
  have h := AddSong_request_encoded "http://x" "a b" "c&d"
  constructor
  · rw [h.1]
    rfl
  · exact h.2.1 '+' (by decide)
